import Mathlib

/-!
Shallow embedding of `sevensense_device/device.py`.

Time values sampled from the clock (`time.time()`) are modelled as
rationals and passed explicitly to each function that reads the clock.
The polling loops of `wait`, `download_image` and `install_image` are
modelled as structural recursion over a finite list of tick
observations: each tick records what the probes, the clock and the
process-exit poll returned at that iteration.  A loop that has not
returned after consuming every supplied tick yields `none` (it is still
running); `some r` is the value the Python function returns.
-/

namespace SevensenseDevice

/-- Enum `DeviceState` of `device.py`. -/
inductive DeviceState
  | Positioning
  | Idle
  | Downloading
  | Upgrading
  | Downgrading
deriving DecidableEq, Repr

/-- Enum `UpgradeStatus` of `device.py`. -/
inductive UpgradeStatus
  | No_Update
  | Success
  | Failed
deriving DecidableEq, Repr

/-- `MAX_UPGRADE_TIME = 10 * 60` seconds. -/
def MAX_UPGRADE_TIME : ℚ := 10 * 60

/-- `MAX_DOWNLOAD_TIME = 5 * 60` seconds. -/
def MAX_DOWNLOAD_TIME : ℚ := 5 * 60

/-- `MAX_WAIT_FOR_IDLE_TIME = 10 * 60` seconds. -/
def MAX_WAIT_FOR_IDLE_TIME : ℚ := 10 * 60

/-- `POLLING_TIME = 0.1` seconds. -/
def POLLING_TIME : ℚ := 1 / 10

/-- The mutable fields of class `Device` that the update logic touches. -/
structure Device where
  software_version : Int
  last_upgrade_status : UpgradeStatus
  state : DeviceState
deriving DecidableEq, Repr

/-- `Device.check_time_not_exceeded(start_time, duration)`.  The Python
body reads the clock itself; here the sampled clock value is the
explicit argument `now`.  The source literally tests
`start_time - time.time() < duration` (note the operand order). -/
def check_time_not_exceeded (start_time now duration : ℚ) : Bool :=
  if start_time - now < duration then true else false

/-- `Device.check_install_timeout(start_time)`. -/
def check_install_timeout (start_time now : ℚ) : Bool :=
  check_time_not_exceeded start_time now MAX_UPGRADE_TIME

/-- `Device.check_download_timeout(start_time)`. -/
def check_download_timeout (start_time now : ℚ) : Bool :=
  check_time_not_exceeded start_time now MAX_DOWNLOAD_TIME

/-- One iteration of the `Device.wait` polling loop: the clock value at
the `check_time_not_exceeded` call and the value `get_current()`
returned on that iteration. -/
structure WaitTick where
  now : ℚ
  current : DeviceState
deriving DecidableEq, Repr

/-- `Device.wait(target, get_current, timeout_duration)`: loop while
`check_time_not_exceeded` holds, returning `true` as soon as the
current value equals `target`, and `false` when the guard fails.
`none` means the loop is still running after all supplied ticks. -/
def wait (target : DeviceState) (start_time timeout_duration : ℚ) :
    List WaitTick → Option Bool
  | [] => none
  | t :: rest =>
    if check_time_not_exceeded start_time t.now timeout_duration then
      if target = t.current then some true
      else wait target start_time timeout_duration rest
    else some false

/-- One iteration of the `Device.download_image` polling loop:
what `get_connection_status()` returned, the clock value at the
`check_download_timeout` call, and whether `process.poll()` reported
the process as exited. -/
structure DownloadTick where
  conn : Bool
  now : ℚ
  exited : Bool
deriving DecidableEq, Repr

/-- How one run of the `download_image` polling loop ended. -/
inductive DownloadOutcome
  | connectionLost
  | downloadTimeout
  | completed
deriving DecidableEq, Repr

/-- The `while True` loop of `Device.download_image`: each tick checks
the connectivity probe, then the download timeout, then process exit,
in that order.  `none` means the loop is still running after all
supplied ticks. -/
def download_loop (start_time : ℚ) : List DownloadTick → Option DownloadOutcome
  | [] => none
  | t :: rest =>
    if !t.conn then some DownloadOutcome.connectionLost
    else if !(check_download_timeout start_time t.now) then
      some DownloadOutcome.downloadTimeout
    else if t.exited then some DownloadOutcome.completed
    else download_loop start_time rest

/-- Result of running one phase (`download_image` or `install_image`):
the returned boolean (`none` when the loop never returned), the device
after the phase's field mutations, whether a subprocess was spawned,
and whether `process.terminate()` was called on it. -/
structure PhaseRun where
  result : Option Bool
  dev : Device
  spawned : Bool
  terminated : Bool
deriving DecidableEq, Repr

/-- `Device.download_image(new_version)`.  Returns `False` at once if
the state is not `Idle`; otherwise sets `state = Downloading`, spawns
the curl process and polls. -/
def download_image (d : Device) (start_time : ℚ)
    (ticks : List DownloadTick) : PhaseRun :=
  if d.state ≠ DeviceState.Idle then
    ⟨some false, d, false, false⟩
  else
    let d1 : Device := { d with state := DeviceState.Downloading }
    match download_loop start_time ticks with
    | none => ⟨none, d1, true, false⟩
    | some DownloadOutcome.connectionLost => ⟨some false, d1, true, true⟩
    | some DownloadOutcome.downloadTimeout => ⟨some false, d1, true, true⟩
    | some DownloadOutcome.completed => ⟨some true, d1, true, false⟩

/-- One iteration of the `Device.install_image` polling loop:
what `get_power_status()` returned, the clock value at the
`check_install_timeout` call, and whether `process.poll()` reported
the process as exited. -/
structure InstallTick where
  power : Bool
  now : ℚ
  exited : Bool
deriving DecidableEq, Repr

/-- How one run of the `install_image` polling loop ended. -/
inductive InstallOutcome
  | powerLost
  | installTimeout
  | completed
deriving DecidableEq, Repr

/-- The `while True` loop of `Device.install_image`: each tick checks
the power probe, then the install timeout, then (after draining stdout,
which has no control effect) process exit. -/
def install_loop (start_time : ℚ) : List InstallTick → Option InstallOutcome
  | [] => none
  | t :: rest =>
    if !t.power then some InstallOutcome.powerLost
    else if !(check_install_timeout start_time t.now) then
      some InstallOutcome.installTimeout
    else if t.exited then some InstallOutcome.completed
    else install_loop start_time rest

/-- `Device.install_image(new_version)`.  Returns `False` at once if
the state is not `Downloading`; otherwise sets the state to
`Downgrading` when `software_version > new_version` and to `Upgrading`
otherwise, spawns the install process and polls. -/
def install_image (d : Device) (new_version : Int) (start_time : ℚ)
    (ticks : List InstallTick) : PhaseRun :=
  if d.state ≠ DeviceState.Downloading then
    ⟨some false, d, false, false⟩
  else
    let d1 : Device :=
      { d with
        state :=
          if d.software_version > new_version then DeviceState.Downgrading
          else DeviceState.Upgrading }
    match install_loop start_time ticks with
    | none => ⟨none, d1, true, false⟩
    | some InstallOutcome.powerLost => ⟨some false, d1, true, true⟩
    | some InstallOutcome.installTimeout => ⟨some false, d1, true, true⟩
    | some InstallOutcome.completed => ⟨some true, d1, true, false⟩

/-- The environment of one `Device.update` run: the clock values
sampled at each loop start and the tick observations each polling loop
consumed. -/
structure UpdateEnv where
  waitStart : ℚ
  waitTimes : List ℚ
  dlStart : ℚ
  dlTicks : List DownloadTick
  instStart : ℚ
  instTicks : List InstallTick
deriving Repr

/-- The wait-for-Idle observations inside `update`: `get_current_state`
reads `self.state`, which no other step of this run mutates, so every
tick observes `d.state`. -/
def updateWaitTicks (d : Device) (env : UpdateEnv) : List WaitTick :=
  env.waitTimes.map fun t => ⟨t, d.state⟩

/-- `Device.update(new_version)`: wait for Idle, reject a same-version
request, run the download phase then the install phase, committing
`Failed`/`Success`, the version and `Idle` exactly as the source does.
`none` means the run never returned (a polling loop still running). -/
def update (d : Device) (new_version : Int) (env : UpdateEnv) :
    Option (Bool × Device) :=
  match wait DeviceState.Idle env.waitStart MAX_WAIT_FOR_IDLE_TIME
      (updateWaitTicks d env) with
  | none => none
  | some false => some (false, d)
  | some true =>
    if d.software_version = new_version then some (false, d)
    else
      let dl := download_image d env.dlStart env.dlTicks
      match dl.result with
      | none => none
      | some false =>
        some (false,
          { dl.dev with
            last_upgrade_status := UpgradeStatus.Failed
            state := DeviceState.Idle })
      | some true =>
        let inst := install_image dl.dev new_version env.instStart env.instTicks
        match inst.result with
        | none => none
        | some false =>
          some (false,
            { inst.dev with
              last_upgrade_status := UpgradeStatus.Failed
              state := DeviceState.Idle })
        | some true =>
          some (true,
            { inst.dev with
              last_upgrade_status := UpgradeStatus.Success
              software_version := new_version
              state := DeviceState.Idle })

/-! Helper lemmas shared by the claim theorems. -/

/-- With a forward-moving clock (`start_time ≤ now`) and a positive
bound, the guard always answers `true`: the source compares
`start_time - now` instead of `now - start_time`. -/
theorem check_time_not_exceeded_of_le (start_time now duration : ℚ)
    (h1 : start_time ≤ now) (h2 : 0 < duration) :
    check_time_not_exceeded start_time now duration = true := by
  have h : start_time - now < duration := by linarith
  simp [check_time_not_exceeded, h]

/-- The download phase never changes `software_version`. -/
theorem download_image_dev_version (d : Device) (s : ℚ)
    (ts : List DownloadTick) :
    (download_image d s ts).dev.software_version = d.software_version := by
  unfold download_image
  by_cases h : d.state = DeviceState.Idle
  · simp only [h, ne_eq, not_true_eq_false, if_false]
    cases download_loop s ts with
    | none => rfl
    | some o => cases o <;> rfl
  · simp [h]

/-- The download phase never changes `last_upgrade_status`. -/
theorem download_image_dev_status (d : Device) (s : ℚ)
    (ts : List DownloadTick) :
    (download_image d s ts).dev.last_upgrade_status = d.last_upgrade_status := by
  unfold download_image
  by_cases h : d.state = DeviceState.Idle
  · simp only [h, ne_eq, not_true_eq_false, if_false]
    cases download_loop s ts with
    | none => rfl
    | some o => cases o <;> rfl
  · simp [h]

/-- The install phase never changes `software_version`. -/
theorem install_image_dev_version (d : Device) (v : Int) (s : ℚ)
    (ts : List InstallTick) :
    (install_image d v s ts).dev.software_version = d.software_version := by
  unfold install_image
  by_cases h : d.state = DeviceState.Downloading
  · simp only [h, ne_eq, not_true_eq_false, if_false]
    cases install_loop s ts with
    | none => rfl
    | some o => cases o <;> rfl
  · simp [h]

/-- Device reached by `install_image` from the `Downloading` state:
only the direction field changes. -/
theorem install_image_dev_of_downloading (d : Device) (v : Int) (s : ℚ)
    (ts : List InstallTick) (h : d.state = DeviceState.Downloading) :
    (install_image d v s ts).dev =
      { d with
        state :=
          if d.software_version > v then DeviceState.Downgrading
          else DeviceState.Upgrading } := by
  unfold install_image
  simp only [h, ne_eq, not_true_eq_false, if_false]
  cases install_loop s ts with
  | none => rfl
  | some o => cases o <;> rfl

/-! Claim theorems. -/

/-- Claim C1 (code bug): the claim says the timeout guard returns true
iff `now - start_time < duration`, so it must return false once the
elapsed time meets the bound.  The source compares
`start_time - time.time() < duration` with the operands swapped, so
whenever the clock has moved forward (`start_time ≤ now`) and the bound
is positive, the guard returns `true` no matter how much time has
elapsed — contradicting its own docstring. -/
theorem check_time_not_exceeded_ignores_elapsed (start_time now duration : ℚ)
    (h1 : start_time ≤ now) (h2 : 0 < duration) :
    check_time_not_exceeded start_time now duration = true := by
  have h : start_time - now < duration := by linarith
  simp [check_time_not_exceeded, h]

/-- Witness for C1: at elapsed time 400 ≥ bound 300 the guard still
answers `true`, where the claim demands `false`. -/
theorem check_time_not_exceeded_ignores_elapsed_witness :
    (0 : ℚ) ≤ 400 ∧ (0 : ℚ) < 300 ∧ ¬((400 : ℚ) - 0 < 300) ∧
      check_time_not_exceeded 0 400 300 = true :=
  ⟨by norm_num, by norm_num, by norm_num,
    check_time_not_exceeded_ignores_elapsed 0 400 300 (by norm_num) (by norm_num)⟩

/-- Claim C2 counterexample: on a device in state `Idle` whose previous
attempt left `last_upgrade_status = Failed`, requesting the current
version again returns without writing `last_upgrade_status`, so the
status still reads `Failed`, not `No_Update` as the claim demands. -/
theorem update_noop_keeps_failed_status :
    update ⟨2, UpgradeStatus.Failed, DeviceState.Idle⟩ 2 ⟨0, [0], 0, [], 0, []⟩ =
        some (false, ⟨2, UpgradeStatus.Failed, DeviceState.Idle⟩) ∧
      (⟨2, UpgradeStatus.Failed, DeviceState.Idle⟩ : Device).state = DeviceState.Idle ∧
      UpgradeStatus.Failed ≠ UpgradeStatus.No_Update := by
  refine ⟨?_, rfl, by decide⟩
  norm_num [update, wait, updateWaitTicks, check_time_not_exceeded,
    MAX_WAIT_FOR_IDLE_TIME]

/-- Claim C2 as amended: a same-version request on an `Idle` device
aborts immediately with the whole device record unchanged — state and
version are untouched as claimed, but `last_upgrade_status` is not
written either (it still reads `No_Update` only on a device where it
already held that value, e.g. a freshly constructed one). -/
theorem update_noop_leaves_device_unchanged (d : Device) (v : Int)
    (env : UpdateEnv) (h1 : d.state = DeviceState.Idle)
    (h2 : d.software_version = v) (h3 : env.waitTimes ≠ []) :
    update d v env = some (false, d) := by
  cases hw : env.waitTimes with
  | nil => exact absurd hw h3
  | cons t ts =>
    unfold update updateWaitTicks
    rw [hw]
    by_cases hc : check_time_not_exceeded env.waitStart t MAX_WAIT_FOR_IDLE_TIME = true
    · simp [wait, hc, h1, h2]
    · simp [wait, Bool.eq_false_iff.mpr hc, h1, h2]

/-- Witness for C2's amended theorem at a fresh device, where the
unchanged status indeed reads `No_Update`. -/
theorem update_noop_leaves_device_unchanged_witness :
    (⟨2, UpgradeStatus.No_Update, DeviceState.Idle⟩ : Device).state = DeviceState.Idle ∧
      (⟨2, UpgradeStatus.No_Update, DeviceState.Idle⟩ : Device).software_version = 2 ∧
      ([(0 : ℚ)] : List ℚ) ≠ [] ∧
      update ⟨2, UpgradeStatus.No_Update, DeviceState.Idle⟩ 2 ⟨0, [0], 0, [], 0, []⟩ =
        some (false, ⟨2, UpgradeStatus.No_Update, DeviceState.Idle⟩) :=
  ⟨rfl, rfl, by simp,
    update_noop_leaves_device_unchanged ⟨2, UpgradeStatus.No_Update, DeviceState.Idle⟩
      2 ⟨0, [0], 0, [], 0, []⟩ rfl rfl (by simp)⟩

/-- Claim C3 (code bug): the claim says that once the elapsed time
exceeds `MAX_DOWNLOAD_TIME` the download loop terminates the process
and fails with the timeout outcome on that tick.  Because the timeout
guard's comparison is reversed, the loop never returns the timeout
outcome while the probe stays true and the process runs: with a
forward-moving clock it keeps polling forever, however far past the
bound the tick times are. -/
theorem download_loop_never_times_out (start_time : ℚ)
    (ticks : List DownloadTick)
    (h : ∀ t ∈ ticks, t.conn = true ∧ t.exited = false ∧ start_time ≤ t.now) :
    download_loop start_time ticks = none := by
  induction ticks with
  | nil => rfl
  | cons t rest ih =>
    obtain ⟨hc, he, hn⟩ := h t (List.mem_cons_self t rest)
    have hg : check_download_timeout start_time t.now = true :=
      check_time_not_exceeded_of_le start_time t.now MAX_DOWNLOAD_TIME hn
        (by norm_num [MAX_DOWNLOAD_TIME])
    simp only [download_loop, hc, hg, he, Bool.not_true, Bool.false_eq_true,
      if_false]
    exact ih fun u hu => h u (List.mem_cons_of_mem t hu)

/-- Witness for C3: a tick at elapsed time 400 s > 300 s with the probe
up and the process still running leaves the loop running, where the
claim demands a `downloadTimeout` failure on that tick. -/
theorem download_loop_never_times_out_witness :
    (∀ t ∈ [(⟨true, 400, false⟩ : DownloadTick)],
        t.conn = true ∧ t.exited = false ∧ (0 : ℚ) ≤ t.now) ∧
      download_loop 0 [⟨true, 400, false⟩] = none :=
  ⟨by norm_num, download_loop_never_times_out 0 [⟨true, 400, false⟩] (by norm_num)⟩

/-- Claim C4 (code bug): the claim says the wait-for-Idle loop returns
after at most `MAX_WAIT_FOR_IDLE_TIME`, after which the update aborts
with no field changed.  Because the timeout guard's comparison is
reversed, when the observed state never equals the target the loop
never exits — it is still running after any number of ticks with a
forward-moving clock, however far past the bound — so `update` never
reaches its abort path. -/
theorem wait_never_returns_when_target_missed (start_time : ℚ)
    (ticks : List WaitTick)
    (h : ∀ t ∈ ticks, t.current ≠ DeviceState.Idle ∧ start_time ≤ t.now) :
    wait DeviceState.Idle start_time MAX_WAIT_FOR_IDLE_TIME ticks = none := by
  induction ticks with
  | nil => rfl
  | cons t rest ih =>
    obtain ⟨hc, hn⟩ := h t (List.mem_cons_self t rest)
    have hg : check_time_not_exceeded start_time t.now MAX_WAIT_FOR_IDLE_TIME = true :=
      check_time_not_exceeded_of_le start_time t.now MAX_WAIT_FOR_IDLE_TIME hn
        (by norm_num [MAX_WAIT_FOR_IDLE_TIME])
    have hne : ¬(DeviceState.Idle = t.current) := fun hh => hc hh.symm
    simp only [wait, hg, hne, if_true, if_false]
    exact ih fun u hu => h u (List.mem_cons_of_mem t hu)

/-- Witness for C4: the device is observed in `Positioning` at elapsed
times 0 s and 10000 s (far beyond the 600 s bound) and the wait loop is
still running, where the claim demands it to have returned. -/
theorem wait_never_returns_when_target_missed_witness :
    (∀ t ∈ [(⟨0, DeviceState.Positioning⟩ : WaitTick),
        ⟨10000, DeviceState.Positioning⟩],
        t.current ≠ DeviceState.Idle ∧ (0 : ℚ) ≤ t.now) ∧
      wait DeviceState.Idle 0 MAX_WAIT_FOR_IDLE_TIME
        [⟨0, DeviceState.Positioning⟩, ⟨10000, DeviceState.Positioning⟩] = none :=
  ⟨by intro t ht; fin_cases ht <;> exact ⟨by decide, by norm_num⟩,
    wait_never_returns_when_target_missed 0
      [⟨0, DeviceState.Positioning⟩, ⟨10000, DeviceState.Positioning⟩]
      (by intro t ht; fin_cases ht <;> exact ⟨by decide, by norm_num⟩)⟩

/-- Claim C5: a run of the install phase entered from `Downloading`
sets the state to `Upgrading` exactly when the target version is at
least the current one, and to `Downgrading` exactly when it is strictly
below it. -/
theorem install_image_direction (d : Device) (v : Int) (start_time : ℚ)
    (ticks : List InstallTick) (h : d.state = DeviceState.Downloading) :
    ((install_image d v start_time ticks).dev.state = DeviceState.Upgrading ↔
        d.software_version ≤ v) ∧
      ((install_image d v start_time ticks).dev.state = DeviceState.Downgrading ↔
        v < d.software_version) := by
  rw [install_image_dev_of_downloading d v start_time ticks h]
  by_cases hv : d.software_version > v
  · rw [if_pos hv]
    exact ⟨⟨fun hh => absurd hh (by simp), fun hh => absurd hh (by omega)⟩,
      ⟨fun _ => hv, fun _ => rfl⟩⟩
  · rw [if_neg hv]
    exact ⟨⟨fun _ => by omega, fun _ => rfl⟩,
      ⟨fun hh => absurd hh (by simp), fun hh => absurd hh hv⟩⟩

/-- Witness for C5 at a device on version 2 in state `Downloading`
asked to install version 3: the state becomes `Upgrading`. -/
theorem install_image_direction_witness :
    (⟨2, UpgradeStatus.No_Update, DeviceState.Downloading⟩ : Device).state =
        DeviceState.Downloading ∧
      ((install_image ⟨2, UpgradeStatus.No_Update, DeviceState.Downloading⟩
          3 0 []).dev.state = DeviceState.Upgrading ↔ (2 : Int) ≤ 3) :=
  ⟨rfl, (install_image_direction ⟨2, UpgradeStatus.No_Update, DeviceState.Downloading⟩
    3 0 [] rfl).1⟩

/-- Claim C6: a run that passes the admission gate and the no-op check
and then fails in the download phase, or in the install phase, returns
`False` with `state = Idle`, `last_upgrade_status = Failed` and the
software version unchanged.  The embedding is total, so no failure path
escapes the orchestration. -/
theorem update_failure_converges_idle_failed (d : Device) (v : Int)
    (env : UpdateEnv)
    (hw : wait DeviceState.Idle env.waitStart MAX_WAIT_FOR_IDLE_TIME
      (updateWaitTicks d env) = some true)
    (hv : d.software_version ≠ v)
    (hf : (download_image d env.dlStart env.dlTicks).result = some false ∨
      ((download_image d env.dlStart env.dlTicks).result = some true ∧
        (install_image (download_image d env.dlStart env.dlTicks).dev v
          env.instStart env.instTicks).result = some false)) :
    ∃ d', update d v env = some (false, d') ∧ d'.state = DeviceState.Idle ∧
      d'.last_upgrade_status = UpgradeStatus.Failed ∧
      d'.software_version = d.software_version := by
  rcases hf with hdl | ⟨hdl, hin⟩
  · refine ⟨{ (download_image d env.dlStart env.dlTicks).dev with
        last_upgrade_status := UpgradeStatus.Failed,
        state := DeviceState.Idle }, ?_, rfl, rfl, ?_⟩
    · simp only [update, hw, hv, hdl, if_false]
    · exact download_image_dev_version d env.dlStart env.dlTicks
  · refine ⟨{ (install_image (download_image d env.dlStart env.dlTicks).dev v
          env.instStart env.instTicks).dev with
        last_upgrade_status := UpgradeStatus.Failed,
        state := DeviceState.Idle }, ?_, rfl, rfl, ?_⟩
    · simp only [update, hw, hv, hdl, hin, if_false]
    · rw [install_image_dev_version, download_image_dev_version]

/-- Witness for C6: a device on version 2 in `Idle`, asked for version
3, loses connectivity on the first download tick; the run ends `Idle`,
`Failed`, still on version 2. -/
theorem update_failure_converges_idle_failed_witness :
    wait DeviceState.Idle 0 MAX_WAIT_FOR_IDLE_TIME
        (updateWaitTicks ⟨2, UpgradeStatus.No_Update, DeviceState.Idle⟩
          ⟨0, [0], 0, [⟨false, 0, false⟩], 0, []⟩) = some true ∧
      ((⟨2, UpgradeStatus.No_Update, DeviceState.Idle⟩ : Device).software_version ≠ 3) ∧
      (download_image ⟨2, UpgradeStatus.No_Update, DeviceState.Idle⟩ 0
        [⟨false, 0, false⟩]).result = some false ∧
      ∃ d', update ⟨2, UpgradeStatus.No_Update, DeviceState.Idle⟩ 3
          ⟨0, [0], 0, [⟨false, 0, false⟩], 0, []⟩ = some (false, d') ∧
        d'.state = DeviceState.Idle ∧
        d'.last_upgrade_status = UpgradeStatus.Failed ∧
        d'.software_version =
          (⟨2, UpgradeStatus.No_Update, DeviceState.Idle⟩ : Device).software_version := by
  have hwp : wait DeviceState.Idle 0 MAX_WAIT_FOR_IDLE_TIME
      (updateWaitTicks ⟨2, UpgradeStatus.No_Update, DeviceState.Idle⟩
        ⟨0, [0], 0, [⟨false, 0, false⟩], 0, []⟩) = some true := by
    norm_num [wait, updateWaitTicks, check_time_not_exceeded, MAX_WAIT_FOR_IDLE_TIME]
  have hdl : (download_image ⟨2, UpgradeStatus.No_Update, DeviceState.Idle⟩ 0
      [⟨false, 0, false⟩]).result = some false := by
    norm_num [download_image, download_loop]
  exact ⟨hwp, by decide, hdl,
    update_failure_converges_idle_failed ⟨2, UpgradeStatus.No_Update, DeviceState.Idle⟩
      3 ⟨0, [0], 0, [⟨false, 0, false⟩], 0, []⟩ hwp (by decide) (Or.inl hdl)⟩

/-- Claim C7: a run in which the download phase and the install phase
both complete returns `True` with `last_upgrade_status = Success`,
`software_version` equal to the target and `state = Idle` all written
on the returned device. -/
theorem update_success_commit (d : Device) (v : Int) (env : UpdateEnv)
    (hw : wait DeviceState.Idle env.waitStart MAX_WAIT_FOR_IDLE_TIME
      (updateWaitTicks d env) = some true)
    (hv : d.software_version ≠ v)
    (hdl : (download_image d env.dlStart env.dlTicks).result = some true)
    (hin : (install_image (download_image d env.dlStart env.dlTicks).dev v
      env.instStart env.instTicks).result = some true) :
    ∃ d', update d v env = some (true, d') ∧
      d'.last_upgrade_status = UpgradeStatus.Success ∧
      d'.software_version = v ∧ d'.state = DeviceState.Idle := by
  refine ⟨{ (install_image (download_image d env.dlStart env.dlTicks).dev v
        env.instStart env.instTicks).dev with
      last_upgrade_status := UpgradeStatus.Success,
      software_version := v,
      state := DeviceState.Idle }, ?_, rfl, rfl, rfl⟩
  simp only [update, hw, hv, hdl, hin, if_false]

/-- Witness for C7: version 2 to version 3; the download and install
processes exit on their first tick with all probes up; the run ends
with `Success` on version 3 in `Idle`. -/
theorem update_success_commit_witness :
    wait DeviceState.Idle 0 MAX_WAIT_FOR_IDLE_TIME
        (updateWaitTicks ⟨2, UpgradeStatus.No_Update, DeviceState.Idle⟩
          ⟨0, [0], 0, [⟨true, 0, true⟩], 0, [⟨true, 0, true⟩]⟩) = some true ∧
      ((⟨2, UpgradeStatus.No_Update, DeviceState.Idle⟩ : Device).software_version ≠ 3) ∧
      (download_image ⟨2, UpgradeStatus.No_Update, DeviceState.Idle⟩ 0
        [⟨true, 0, true⟩]).result = some true ∧
      (install_image (download_image ⟨2, UpgradeStatus.No_Update, DeviceState.Idle⟩ 0
        [⟨true, 0, true⟩]).dev 3 0 [⟨true, 0, true⟩]).result = some true ∧
      ∃ d', update ⟨2, UpgradeStatus.No_Update, DeviceState.Idle⟩ 3
          ⟨0, [0], 0, [⟨true, 0, true⟩], 0, [⟨true, 0, true⟩]⟩ = some (true, d') ∧
        d'.last_upgrade_status = UpgradeStatus.Success ∧
        d'.software_version = 3 ∧ d'.state = DeviceState.Idle := by
  have hwp : wait DeviceState.Idle 0 MAX_WAIT_FOR_IDLE_TIME
      (updateWaitTicks ⟨2, UpgradeStatus.No_Update, DeviceState.Idle⟩
        ⟨0, [0], 0, [⟨true, 0, true⟩], 0, [⟨true, 0, true⟩]⟩) = some true := by
    norm_num [wait, updateWaitTicks, check_time_not_exceeded, MAX_WAIT_FOR_IDLE_TIME]
  have hdl : (download_image ⟨2, UpgradeStatus.No_Update, DeviceState.Idle⟩ 0
      [⟨true, 0, true⟩]).result = some true := by
    norm_num [download_image, download_loop, check_download_timeout,
      check_time_not_exceeded, MAX_DOWNLOAD_TIME]
  have hin : (install_image (download_image ⟨2, UpgradeStatus.No_Update,
      DeviceState.Idle⟩ 0 [⟨true, 0, true⟩]).dev 3 0
      [⟨true, 0, true⟩]).result = some true := by
    norm_num [install_image, install_loop, check_install_timeout,
      check_time_not_exceeded, MAX_UPGRADE_TIME, download_image, download_loop,
      check_download_timeout, MAX_DOWNLOAD_TIME]
  exact ⟨hwp, by decide, hdl, hin,
    update_success_commit ⟨2, UpgradeStatus.No_Update, DeviceState.Idle⟩ 3
      ⟨0, [0], 0, [⟨true, 0, true⟩], 0, [⟨true, 0, true⟩]⟩ hwp (by decide) hdl hin⟩

/-- Claim C8: the download loop checks the connectivity probe before
the timeout and before process exit, so a tick on which the probe is
down ends the phase with `connectionLost` even when the timeout guard
has also failed or the process has also exited on that same tick. -/
theorem download_loop_connection_first (start_time : ℚ) (t : DownloadTick)
    (rest : List DownloadTick) (hc : t.conn = false)
    (_hother : check_download_timeout start_time t.now = false ∨ t.exited = true) :
    download_loop start_time (t :: rest) = some DownloadOutcome.connectionLost := by
  simp [download_loop, hc]

/-- Witness for C8: the probe is down on a tick where the process has
also exited, and the loop still reports `connectionLost`. -/
theorem download_loop_connection_first_witness :
    ((⟨false, 0, true⟩ : DownloadTick).conn = false) ∧
      (check_download_timeout 0 (0 : ℚ) = false ∨
        (⟨false, 0, true⟩ : DownloadTick).exited = true) ∧
      download_loop 0 [⟨false, 0, true⟩] = some DownloadOutcome.connectionLost :=
  ⟨rfl, Or.inr rfl,
    download_loop_connection_first 0 ⟨false, 0, true⟩ [] rfl (Or.inr rfl)⟩

/-- Claim C9: calling the download phase while the state is not `Idle`
returns failure at once with the device untouched and no process
spawned; from `Idle` it sets `state = Downloading` and spawns the
process. -/
theorem download_image_admission (d : Device) (s : ℚ)
    (ts : List DownloadTick) :
    (d.state ≠ DeviceState.Idle →
        download_image d s ts = ⟨some false, d, false, false⟩) ∧
      (d.state = DeviceState.Idle →
        (download_image d s ts).dev.state = DeviceState.Downloading ∧
          (download_image d s ts).spawned = true) := by
  constructor
  · intro h
    unfold download_image
    rw [if_pos h]
  · intro h
    unfold download_image
    rw [if_neg fun hh => hh h]
    cases download_loop s ts with
    | none => exact ⟨rfl, rfl⟩
    | some o => cases o <;> exact ⟨rfl, rfl⟩

/-- Witness for C9, first for a device in `Positioning` (rejected with
no mutation and no spawn), then for one in `Idle` (state becomes
`Downloading`, process spawned). -/
theorem download_image_admission_witness :
    ((⟨2, UpgradeStatus.No_Update, DeviceState.Positioning⟩ : Device).state ≠
        DeviceState.Idle ∧
      download_image ⟨2, UpgradeStatus.No_Update, DeviceState.Positioning⟩ 0 [] =
        ⟨some false, ⟨2, UpgradeStatus.No_Update, DeviceState.Positioning⟩,
          false, false⟩) ∧
      ((⟨2, UpgradeStatus.No_Update, DeviceState.Idle⟩ : Device).state =
          DeviceState.Idle ∧
        (download_image ⟨2, UpgradeStatus.No_Update, DeviceState.Idle⟩ 0
          []).dev.state = DeviceState.Downloading ∧
        (download_image ⟨2, UpgradeStatus.No_Update, DeviceState.Idle⟩ 0
          []).spawned = true) := by
  refine ⟨⟨by decide, ?_⟩, rfl, ?_⟩
  · exact (download_image_admission ⟨2, UpgradeStatus.No_Update,
      DeviceState.Positioning⟩ 0 []).1 (by decide)
  · exact (download_image_admission ⟨2, UpgradeStatus.No_Update,
      DeviceState.Idle⟩ 0 []).2 rfl

/-- Claim C10: `update` returns `True` exactly on the full success
commit — admission passed, version differs, both phases completed, and
`last_upgrade_status` written to `Success` — while a same-version
request returns `False` with the device record, including the previous
status, untouched: the boolean does not distinguish a no-op from a
failure. -/
theorem update_returns_true_iff_success_commit (d : Device) (v : Int)
    (env : UpdateEnv) :
    ((∃ d', update d v env = some (true, d') ∧
          d'.last_upgrade_status = UpgradeStatus.Success) ↔
        (wait DeviceState.Idle env.waitStart MAX_WAIT_FOR_IDLE_TIME
            (updateWaitTicks d env) = some true ∧
          d.software_version ≠ v ∧
          (download_image d env.dlStart env.dlTicks).result = some true ∧
          (install_image (download_image d env.dlStart env.dlTicks).dev v
            env.instStart env.instTicks).result = some true)) ∧
      (wait DeviceState.Idle env.waitStart MAX_WAIT_FOR_IDLE_TIME
          (updateWaitTicks d env) = some true →
        d.software_version = v → update d v env = some (false, d)) := by
  constructor
  · constructor
    · rintro ⟨d', hd', hs⟩
      cases hwait : wait DeviceState.Idle env.waitStart MAX_WAIT_FOR_IDLE_TIME
          (updateWaitTicks d env) with
      | none => simp [update, hwait] at hd'
      | some b =>
        cases b with
        | false => simp [update, hwait] at hd'
        | true =>
          by_cases hv : d.software_version = v
          · simp [update, hwait, hv] at hd'
          · cases hdl : (download_image d env.dlStart env.dlTicks).result with
            | none => simp [update, hwait, hv, hdl] at hd'
            | some bd =>
              cases bd with
              | false => simp [update, hwait, hv, hdl] at hd'
              | true =>
                cases hin : (install_image
                    (download_image d env.dlStart env.dlTicks).dev v
                    env.instStart env.instTicks).result with
                | none => simp [update, hwait, hv, hdl, hin] at hd'
                | some bi =>
                  cases bi with
                  | false => simp [update, hwait, hv, hdl, hin] at hd'
                  | true => exact ⟨rfl, hv, rfl, rfl⟩
    · rintro ⟨hw, hv, hdl, hin⟩
      refine ⟨{ (install_image (download_image d env.dlStart env.dlTicks).dev v
            env.instStart env.instTicks).dev with
          last_upgrade_status := UpgradeStatus.Success,
          software_version := v,
          state := DeviceState.Idle }, ?_, rfl⟩
      simp only [update, hw, hv, hdl, hin, if_false]
  · intro hw hv
    simp [update, hw, hv]

/-- Witness for C10's no-op conjunct: an `Idle` device on version 2
asked for version 2 again returns `False` with the device unchanged. -/
theorem update_returns_true_iff_success_commit_witness :
    wait DeviceState.Idle 0 MAX_WAIT_FOR_IDLE_TIME
        (updateWaitTicks ⟨2, UpgradeStatus.No_Update, DeviceState.Idle⟩
          ⟨0, [0], 0, [], 0, []⟩) = some true ∧
      (⟨2, UpgradeStatus.No_Update, DeviceState.Idle⟩ : Device).software_version = 2 ∧
      update ⟨2, UpgradeStatus.No_Update, DeviceState.Idle⟩ 2 ⟨0, [0], 0, [], 0, []⟩ =
        some (false, ⟨2, UpgradeStatus.No_Update, DeviceState.Idle⟩) := by
  have hwp : wait DeviceState.Idle 0 MAX_WAIT_FOR_IDLE_TIME
      (updateWaitTicks ⟨2, UpgradeStatus.No_Update, DeviceState.Idle⟩
        ⟨0, [0], 0, [], 0, []⟩) = some true := by
    norm_num [wait, updateWaitTicks, check_time_not_exceeded, MAX_WAIT_FOR_IDLE_TIME]
  exact ⟨hwp, rfl,
    (update_returns_true_iff_success_commit ⟨2, UpgradeStatus.No_Update,
      DeviceState.Idle⟩ 2 ⟨0, [0], 0, [], 0, []⟩).2 hwp rfl⟩

end SevensenseDevice
